import Mathlib

/-!
Shallow embedding of the voice-message summarization bot
(`src/voice_transcriber.py`, `src/config.py`).

The program is an event-driven Telegram bot.  Per voice message it runs a
pipeline (`process_voice_message`): dedup check, download to a temp file,
transcription via an HTTP speech-to-text call, summarization via an HTTP
chat-completion call, delivery of the summary (and optionally a forward of
the audio), cleanup of the temp file, and marking the message id processed.
Two listeners dispatch into the pipeline: `handle_auto_mode` (registered on
the configured source chat) and `handle_command_mode` (all chats, trigger
keyword reply).

External effects (HTTP, Telegram I/O, the filesystem) are modelled by an
`Env` oracle fixing the outcome of each call, an explicit `PipelineState`
(dedup ledger + files on disk), and a trace of `Effect`s recording which
external calls the run performed.
-/

namespace VoiceBot

/-! ### Configuration constants (`src/config.py`) -/

def GROQ_BASE_URL : String := "https://api.groq.com/openai/v1"

def GROQ_MODEL : String := "moonshotai/kimi-k2-instruct"

def GROQ_STT_MODEL : String := "whisper-large-v3-turbo"

def TRANSCRIBE_COMMAND : String := "stt"

def AUTO_PROCESS : Bool := true

def FORWARD_VOICE_MESSAGE : Bool := false

/-! ### Data model -/

/-- A Telegram voice message as the pipeline sees it: identifier, whether the
message is classified as voice, and its timestamp (epoch seconds). -/
structure VoiceMsg where
  id : Nat
  isVoice : Bool
  date : Int
  deriving Repr, DecidableEq

/-- An incoming new-message event: originating chat, message text, optional
reply-target id, and the carried message. -/
structure Event where
  chatId : Int
  text : String
  replyToMsgId : Option Nat
  message : VoiceMsg
  deriving Repr, DecidableEq

/-- Mutable process state: the dedup ledger `processed_messages` (a set of
message ids, modelled as a duplicate-free-by-use list) and the files present
on disk. -/
structure PipelineState where
  processed : List Nat
  files : List String
  deriving Repr, DecidableEq

/-- Trace of externally visible actions of one handler/pipeline run. -/
inductive Effect where
  | download (path : String)
  | sttCall (path : String)
  | llmCall (text : String)
  | sendMessage (chat : Int) (text : String)
  | forwardMsg (chat : Int) (msgId : Nat)
  | reply (text : String)
  deriving Repr, DecidableEq

/-- Oracle fixing the outcome of each external call in a run.
`transcribeResponse`/`summarizeResponse` are `none` when the HTTP call raised
(network error or `raise_for_status`), which the adapter catches and turns
into a Python `None`; `some s` is the returned text/content. -/
structure Env where
  transcribeResponse : Option String
  summarizeResponse : Option String
  downloadRaises : Bool
  sendRaises : Bool
  forwardRaises : Bool
  deriving Repr, DecidableEq

/-- Python truthiness of an `Optional[str]`: `None` and `""` are falsy
(`if not transcription:`). -/
def pyFalsyStr : Option String → Bool
  | none => true
  | some s => s.isEmpty

/-- Python truthiness of an `Optional[int]` (`if event.message.reply_to_msg_id`):
`None` and `0` are falsy. -/
def pyTruthyOptNat : Option Nat → Bool
  | none => false
  | some n => n ≠ 0

/-- Python str.lower, embedded characterwise (ASCII case mapping, which
covers every configured keyword and the texts at issue). -/
def py_lower (s : String) : String :=
  ⟨s.data.map Char.toLower⟩

/-- Python str.strip with no argument: drop whitespace from both ends. -/
def py_strip (s : String) : String :=
  ⟨((s.data.dropWhile Char.isWhitespace).reverse.dropWhile
      Char.isWhitespace).reverse⟩

/-- `if os.path.exists(audio_path): os.remove(audio_path)`. -/
def removeIfExists (files : List String) (p : String) : List String :=
  if p ∈ files then files.filter (fun q => q ≠ p) else files

/-! ### Adapters -/

/-- The HTTP request `transcribe_audio` builds against the speech-to-text
endpoint (url, model, response format, bearer auth, request timeout). -/
structure SttRequest where
  url : String
  model : String
  response_format : String
  timeout : Nat
  deriving Repr, DecidableEq

/-- The HTTP request `summarize_text` builds against the chat-completion
endpoint; `temperature` is part of the JSON payload. -/
structure ChatRequest where
  url : String
  model : String
  prompt : String
  temperature : Nat
  timeout : Nat
  deriving Repr, DecidableEq

/-- `transcribe_audio` (src/voice_transcriber.py:31-52): posts the audio file
to the audio-transcriptions endpoint under `GROQ_BASE_URL` with `timeout=120`; returns
`response.text` on success and `None` on any exception (caught in-function).
The built request is returned alongside the outcome. -/
def transcribe_audio (env : Env) (audio_file_path : String) :
    SttRequest × Option String :=
  ({ url := GROQ_BASE_URL ++ "/audio/transcriptions"
     model := GROQ_STT_MODEL
     response_format := "text"
     timeout := 120 },
   env.transcribeResponse)

/-- The prompt `summarize_text` interpolates around the transcript. -/
def summaryPrompt (text : String) : String :=
  "Summarize the following text into a clear, concise bullet-point list. The summary should be in the same language as the original text. Focus on the key points and main ideas:\n\n"
    ++ text
    ++ "\n\nProvide the summary as a bullet-point list."

/-- `summarize_text` (src/voice_transcriber.py:55-80): posts the prompt to
the chat-completions endpoint under `GROQ_BASE_URL` with temperature 0 and
`timeout=120`; returns the content of the first choice on success and
`None` on any exception
(caught in-function). -/
def summarize_text (env : Env) (text : String) :
    ChatRequest × Option String :=
  ({ url := GROQ_BASE_URL ++ "/chat/completions"
     model := GROQ_MODEL
     prompt := summaryPrompt text
     temperature := 0
     timeout := 120 },
   env.summarizeResponse)

/-! ### The pipeline -/

/-- The deterministic temp file name: `temp_voice_`, the message id, `.ogg`
(src/voice_transcriber.py:99). -/
def temp_path (id : Nat) : String :=
  "temp_voice_" ++ toString id ++ ".ogg"

/-- Outcome of the `try:` body of `process_voice_message`
(src/voice_transcriber.py:92-144): resulting ledger and files, the effects
performed, and whether an exception escaped the body (to be caught by the
`except` at line 146). -/
structure BodyOut where
  processed : List Nat
  files : List String
  effects : List Effect
  exn : Bool
  deriving Repr, DecidableEq

/-- The `try:` body of `process_voice_message`, line by line:
dedup check (94), download (99-100), transcribe + falsy check with cleanup
(105-110), summarize + falsy check with cleanup (115-120), send summary
(125-128), optional forward (131-135), cleanup (140-141), mark processed
(144).  A raising external call sets `exn := true` at that point. -/
def process_body (env : Env) (voice_msg : VoiceMsg) (destination_chat_id : Int)
    (forward_voice : Bool) (st : PipelineState) : BodyOut :=
  if voice_msg.id ∈ st.processed then
    { processed := st.processed, files := st.files, effects := [], exn := false }
  else
    let audio_path := temp_path voice_msg.id
    if env.downloadRaises then
      { processed := st.processed, files := st.files
        effects := [.download audio_path], exn := true }
    else
      let files₁ := audio_path :: st.files
      let transcription := (transcribe_audio env audio_path).2
      if pyFalsyStr transcription then
        { processed := st.processed, files := removeIfExists files₁ audio_path
          effects := [.download audio_path, .sttCall audio_path], exn := false }
      else
        let t := transcription.getD ""
        let summary := (summarize_text env t).2
        if pyFalsyStr summary then
          { processed := st.processed, files := removeIfExists files₁ audio_path
            effects := [.download audio_path, .sttCall audio_path, .llmCall t]
            exn := false }
        else
          let s := summary.getD ""
          let eff₃ := [.download audio_path, .sttCall audio_path, .llmCall t,
            Effect.sendMessage destination_chat_id
              ("🎤 **Voice Message Summary:**\n\n" ++ s)]
          if env.sendRaises then
            { processed := st.processed, files := files₁, effects := eff₃
              exn := true }
          else if forward_voice && env.forwardRaises then
            { processed := st.processed, files := files₁
              effects := eff₃ ++ [.forwardMsg destination_chat_id voice_msg.id]
              exn := true }
          else
            let eff₄ := if forward_voice then
                eff₃ ++ [.forwardMsg destination_chat_id voice_msg.id]
              else eff₃
            { processed := voice_msg.id :: st.processed
              files := removeIfExists files₁ audio_path
              effects := eff₄, exn := false }

/-- Result of one call to `process_voice_message` or a handler: final state,
effect trace, and whether an exception propagated out to the caller. -/
structure RunResult where
  state : PipelineState
  effects : List Effect
  raised : Bool
  deriving Repr, DecidableEq

/-- `process_voice_message` (src/voice_transcriber.py:83-149): runs the body;
the `except Exception` clause (146-149) catches any exception from the body,
removes the temp file if it exists, and returns normally — so `raised` is
false on every path. -/
def process_voice_message (env : Env) (voice_msg : VoiceMsg)
    (destination_chat_id : Int) (forward_voice : Bool)
    (st : PipelineState) : RunResult :=
  let b := process_body env voice_msg destination_chat_id forward_voice st
  if b.exn then
    { state := { processed := b.processed
                 files := removeIfExists b.files (temp_path voice_msg.id) }
      effects := b.effects, raised := false }
  else
    { state := { processed := b.processed, files := b.files }
      effects := b.effects, raised := false }

/-! ### Listeners -/

/-- A run that touches nothing. -/
def noop (st : PipelineState) : RunResult :=
  { state := st, effects := [], raised := false }

/-- `handle_auto_mode` (src/voice_transcriber.py:178-187): on a new message
event, invoke the pipeline with the configured destination and forward flag
when the message is voice and strictly newer than process start. -/
def handle_auto_mode (env : Env) (destination_chat_id : Int)
    (start_time : Int) (ev : Event) (st : PipelineState) : RunResult :=
  if ev.message.isVoice && decide (start_time < ev.message.date) then
    process_voice_message env ev.message destination_chat_id
      FORWARD_VOICE_MESSAGE st
  else noop st

/-- The registration filter `events.NewMessage(chats=config.SOURCE_CHAT_ID)`
(src/voice_transcriber.py:177): `handle_auto_mode` only runs for events in
the source chat. -/
def auto_dispatch (env : Env) (source_chat_id destination_chat_id : Int)
    (start_time : Int) (ev : Event) (st : PipelineState) : RunResult :=
  if ev.chatId = source_chat_id then
    handle_auto_mode env destination_chat_id start_time ev st
  else noop st

/-- The command-mode trigger condition (src/voice_transcriber.py:200-202):
the message is a reply, has text, and its text lowercased then stripped
equals the lowercased configured keyword. -/
def command_triggered (ev : Event) : Bool :=
  pyTruthyOptNat ev.replyToMsgId && !ev.text.isEmpty
    && (py_strip (py_lower ev.text) == py_lower TRANSCRIBE_COMMAND)

/-- The usage hint sent when the command targets a non-voice message. -/
def usageHint : String :=
  "⚠️ Please reply to a voice message with \x27stt\x27 to transcribe it."

/-- The generic failure notice sent by the `except` clause of the command
handler. -/
def commandErrorNotice : String :=
  "❌ Error processing voice message."

/-- `handle_command_mode` (src/voice_transcriber.py:197-228): when triggered,
resolve the replied-to message (`replied_msg`; `get_reply_raises` models
`get_reply_message` raising).  A voice reply runs the pipeline into the
originating chat with `forward_voice=False`; otherwise a usage hint is sent.
Any exception in the `try:` is caught and answered with an error notice. -/
def handle_command_mode (env : Env) (ev : Event)
    (replied_msg : Option VoiceMsg) (get_reply_raises : Bool)
    (st : PipelineState) : RunResult :=
  if command_triggered ev then
    if get_reply_raises then
      { state := st, effects := [.reply commandErrorNotice], raised := false }
    else
      match replied_msg with
      | some m =>
        if m.isVoice then
          process_voice_message env m ev.chatId false st
        else
          { state := st, effects := [.reply usageHint], raised := false }
      | none =>
        { state := st, effects := [.reply usageHint], raised := false }
  else noop st

/-- A run of the pipeline fully succeeds when no stage fails: the download
does not raise, transcription and summarization return non-falsy text, the
send does not raise, and (when forwarding) the forward does not raise. -/
def runSucceeds (env : Env) (forward_voice : Bool) : Bool :=
  !env.downloadRaises && !pyFalsyStr env.transcribeResponse
    && !pyFalsyStr env.summarizeResponse && !env.sendRaises
    && (!forward_voice || !env.forwardRaises)

/-- True exactly on forward effects. -/
def Effect.isForward : Effect → Bool
  | .forwardMsg _ _ => true
  | _ => false

/-- True exactly on send-message (summary delivery) effects. -/
def Effect.isSend : Effect → Bool
  | .sendMessage _ _ => true
  | _ => false

/-! ### Helper lemmas -/

theorem not_mem_removeIfExists_self (fs : List String) (p : String) :
    p ∉ removeIfExists fs p := by
  unfold removeIfExists
  split_ifs with h
  · simp
  · exact h

/-! ### Claims -/

/-- C1: past the dedup gate, the message identifier is added to the ledger
exactly when download, transcription, summarization and delivery all succeed
in that run, and the ledger is left unchanged on any partial failure. -/
theorem C1_ledger_add_iff_full_success (env : Env) (msg : VoiceMsg)
    (dest : Int) (fwd : Bool) (st : PipelineState)
    (h : msg.id ∉ st.processed) :
    (process_voice_message env msg dest fwd st).state.processed =
      (if runSucceeds env fwd then msg.id :: st.processed
       else st.processed) := by
  simp only [process_voice_message, process_body, runSucceeds,
    transcribe_audio, summarize_text]
  split_ifs <;> simp_all

/-- C1 witness: a fully successful run on a fresh message id. -/
theorem C1_ledger_add_iff_full_success_witness :
    (7 ∉ (⟨[], []⟩ : PipelineState).processed) ∧
      (process_voice_message ⟨some "hi", some "- hi", false, false, false⟩
          ⟨7, true, 10⟩ 99 false ⟨[], []⟩).state.processed =
        (if runSucceeds ⟨some "hi", some "- hi", false, false, false⟩ false
         then 7 :: (⟨[], []⟩ : PipelineState).processed
         else (⟨[], []⟩ : PipelineState).processed) :=
  ⟨by simp, C1_ledger_add_iff_full_success _ _ _ _ _ (by simp)⟩

/-- C2: a voice message whose id is already in the ledger is skipped
entirely: no download, no adapter call, no send, state unchanged. -/
theorem C2_dedup_noop (env : Env) (msg : VoiceMsg) (dest : Int) (fwd : Bool)
    (st : PipelineState) (h : msg.id ∈ st.processed) :
    process_voice_message env msg dest fwd st =
      { state := st, effects := [], raised := false } := by
  simp [process_voice_message, process_body, h]

/-- C2 witness: id 7 already processed. -/
theorem C2_dedup_noop_witness :
    (7 ∈ (⟨[7], []⟩ : PipelineState).processed) ∧
      process_voice_message ⟨some "hi", some "- hi", false, false, false⟩
          ⟨7, true, 10⟩ 99 true ⟨[7], []⟩ =
        { state := ⟨[7], []⟩, effects := [], raised := false } :=
  ⟨by simp, C2_dedup_noop _ _ _ _ _ (by simp)⟩

/-- C3: past the dedup gate, the temp audio file named from the message id
is absent from disk when the run ends, on every exit path. -/
theorem C3_temp_file_absent_after_run (env : Env) (msg : VoiceMsg)
    (dest : Int) (fwd : Bool) (st : PipelineState)
    (h : msg.id ∉ st.processed) :
    temp_path msg.id ∉
      (process_voice_message env msg dest fwd st).state.files := by
  simp only [process_voice_message, process_body]
  split_ifs <;> simp_all [not_mem_removeIfExists_self]

/-- C3 witness: a run whose transcription fails still ends with the temp
file absent. -/
theorem C3_temp_file_absent_after_run_witness :
    (7 ∉ (⟨[], []⟩ : PipelineState).processed) ∧
      temp_path 7 ∉
        (process_voice_message ⟨none, some "- hi", false, false, false⟩
            ⟨7, true, 10⟩ 99 false ⟨[], []⟩).state.files :=
  ⟨by simp, C3_temp_file_absent_after_run _ _ _ _ _ (by simp)⟩

/-- C4 counterexample: in a run where delivery raises (good transcription
and summary, `sendRaises = true`), the body of the pipeline does raise at the
delivery step, yet `process_voice_message` returns normally — the exception
is caught by its outer `except` clause and does NOT propagate to the
handler, contrary to the claim. -/
theorem C4_delivery_exception_does_not_propagate :
    (process_body ⟨some "hello", some "- point", false, true, false⟩
        ⟨7, true, 10⟩ 99 false ⟨[], []⟩).exn = true ∧
      (process_voice_message ⟨some "hello", some "- point", false, true, false⟩
          ⟨7, true, 10⟩ 99 false ⟨[], []⟩).raised = false := by
  constructor <;> rfl

/-- C4 amended: an exception raised during the delivery step — whether while
posting the summary or while forwarding the audio — is caught inside the
pipeline by its catch-all handler; the call returns normally to the
listener, the temp file is removed, and the ledger is unchanged. -/
theorem C4_delivery_exception_caught_inside_pipeline (env : Env)
    (msg : VoiceMsg) (dest : Int) (fwd : Bool) (st : PipelineState)
    (h : msg.id ∉ st.processed) (hd : env.downloadRaises = false)
    (ht : pyFalsyStr env.transcribeResponse = false)
    (hm : pyFalsyStr env.summarizeResponse = false)
    (hdeliv : env.sendRaises = true ∨
      (fwd = true ∧ env.forwardRaises = true)) :
    (process_body env msg dest fwd st).exn = true ∧
      (process_voice_message env msg dest fwd st).raised = false ∧
      (process_voice_message env msg dest fwd st).state.processed =
        st.processed ∧
      temp_path msg.id ∉
        (process_voice_message env msg dest fwd st).state.files := by
  simp only [process_voice_message, process_body, transcribe_audio,
    summarize_text]
  rcases hdeliv with hs | ⟨hf, hr⟩ <;>
    split_ifs <;> simp_all [not_mem_removeIfExists_self]

/-- C4 amended witness: the summary send succeeds and the forward raises. -/
theorem C4_delivery_exception_caught_inside_pipeline_witness :
    ((9 ∉ (⟨[], []⟩ : PipelineState).processed) ∧
        pyFalsyStr (some "hello") = false ∧
        ((false = true) ∨ (true = true ∧ true = true))) ∧
      (process_voice_message ⟨some "hello", some "- point", false, false, true⟩
          ⟨9, true, 10⟩ 99 true ⟨[], []⟩).raised = false ∧
      (process_voice_message ⟨some "hello", some "- point", false, false, true⟩
          ⟨9, true, 10⟩ 99 true ⟨[], []⟩).state.processed =
        (⟨[], []⟩ : PipelineState).processed ∧
      temp_path 9 ∉
        (process_voice_message ⟨some "hello", some "- point", false, false, true⟩
            ⟨9, true, 10⟩ 99 true ⟨[], []⟩).state.files :=
  ⟨⟨by simp, rfl, Or.inr ⟨rfl, rfl⟩⟩,
    (C4_delivery_exception_caught_inside_pipeline
        ⟨some "hello", some "- point", false, false, true⟩ ⟨9, true, 10⟩ 99
        true ⟨[], []⟩ (by simp) rfl rfl rfl (Or.inr ⟨rfl, rfl⟩)).2⟩

/-- C5: with the configured keyword "stt", trigger matching lowercases then
trims the reply text and compares for exact equality: " STT ", "stt" and
"Stt" trigger; "stt!" does not. -/
theorem C5_trigger_keyword_matching (chat : Int) (rid : Nat) (m : VoiceMsg)
    (h : rid ≠ 0) :
    command_triggered ⟨chat, " STT ", some rid, m⟩ = true ∧
      command_triggered ⟨chat, "stt", some rid, m⟩ = true ∧
      command_triggered ⟨chat, "Stt", some rid, m⟩ = true ∧
      command_triggered ⟨chat, "stt!", some rid, m⟩ = false := by
  have hb : pyTruthyOptNat (some rid) = true := by simp [pyTruthyOptNat, h]
  refine ⟨?_, ?_, ?_, ?_⟩ <;>
    · simp only [command_triggered, hb]
      decide

/-- C5 witness. -/
theorem C5_trigger_keyword_matching_witness :
    (1 : Nat) ≠ 0 ∧
      (command_triggered ⟨0, " STT ", some 1, ⟨7, true, 10⟩⟩ = true ∧
        command_triggered ⟨0, "stt", some 1, ⟨7, true, 10⟩⟩ = true ∧
        command_triggered ⟨0, "Stt", some 1, ⟨7, true, 10⟩⟩ = true ∧
        command_triggered ⟨0, "stt!", some 1, ⟨7, true, 10⟩⟩ = false) :=
  ⟨by simp, C5_trigger_keyword_matching 0 1 ⟨7, true, 10⟩ (by simp)⟩

/-- C6: for an event in the configured source chat, the Auto Listener runs
the pipeline exactly when the message is voice and strictly newer than
process start; voice messages at or before process start (and non-voice
messages) are ignored. -/
theorem C6_auto_listener_filter (env : Env) (src dest start_time : Int)
    (ev : Event) (st : PipelineState) (hchat : ev.chatId = src) :
    ((ev.message.isVoice = true ∧ start_time < ev.message.date) →
        auto_dispatch env src dest start_time ev st =
          process_voice_message env ev.message dest FORWARD_VOICE_MESSAGE st) ∧
      ((ev.message.isVoice = false ∨ ev.message.date ≤ start_time) →
        auto_dispatch env src dest start_time ev st = noop st) := by
  unfold auto_dispatch handle_auto_mode
  rw [if_pos hchat]
  constructor
  · rintro ⟨hv, hlt⟩
    simp [hv, hlt]
  · rintro (hv | hle)
    · simp [hv]
    · simp [not_lt.mpr hle]

/-- C6 witness: a voice message dated before process start is ignored. -/
theorem C6_auto_listener_filter_witness :
    ((⟨5, "", none, ⟨7, true, 3⟩⟩ : Event).chatId = 5 ∧
        ((⟨5, "", none, ⟨7, true, 3⟩⟩ : Event).message.isVoice = false ∨
          (⟨5, "", none, ⟨7, true, 3⟩⟩ : Event).message.date ≤ 3)) ∧
      auto_dispatch ⟨some "hi", some "- hi", false, false, false⟩ 5 99 3
          ⟨5, "", none, ⟨7, true, 3⟩⟩ ⟨[], []⟩ =
        noop ⟨[], []⟩ :=
  ⟨⟨rfl, Or.inr (by simp)⟩,
    (C6_auto_listener_filter _ _ _ _ _ _ rfl).2 (Or.inr (by simp))⟩

/-- C7: a triggering command reply whose replied-to message is not a voice
message gets the usage hint in the originating chat and nothing else: state
unchanged, no download and no adapter call. -/
theorem C7_nonvoice_reply_gets_usage_hint (env : Env) (ev : Event)
    (m : VoiceMsg) (st : PipelineState)
    (htrig : command_triggered ev = true) (hnv : m.isVoice = false) :
    handle_command_mode env ev (some m) false st =
      { state := st, effects := [Effect.reply usageHint], raised := false } := by
  simp [handle_command_mode, htrig, hnv]

/-- C7 witness: an stt reply to a non-voice message. -/
theorem C7_nonvoice_reply_gets_usage_hint_witness :
    (command_triggered ⟨4, "stt", some 1, ⟨2, false, 0⟩⟩ = true ∧
        (⟨3, false, 0⟩ : VoiceMsg).isVoice = false) ∧
      handle_command_mode ⟨some "hi", some "- hi", false, false, false⟩
          ⟨4, "stt", some 1, ⟨2, false, 0⟩⟩ (some ⟨3, false, 0⟩) false
          ⟨[], []⟩ =
        { state := ⟨[], []⟩, effects := [Effect.reply usageHint]
          raised := false } :=
  ⟨⟨by decide, rfl⟩,
    C7_nonvoice_reply_gets_usage_hint _ _ _ _ (by decide) rfl⟩

theorem no_forward_effect_of_forward_false (env : Env) (msg : VoiceMsg)
    (dest : Int) (st : PipelineState) :
    ∀ e ∈ (process_voice_message env msg dest false st).effects,
      e.isForward = false := by
  by_cases h1 : msg.id ∈ st.processed <;>
    by_cases h2 : env.downloadRaises = true <;>
      by_cases h3 : pyFalsyStr env.transcribeResponse = true <;>
        by_cases h4 : pyFalsyStr env.summarizeResponse = true <;>
          by_cases h5 : env.sendRaises = true <;>
            simp_all [process_voice_message, process_body, transcribe_audio,
              summarize_text, Effect.isForward]

/-- C8: the Command Listener always invokes the pipeline with the forward
flag false, and consequently no run of the command handler ever produces a
forward effect. -/
theorem C8_command_mode_never_forwards (env : Env) (ev : Event)
    (replied_msg : Option VoiceMsg) (get_reply_raises : Bool)
    (st : PipelineState) :
    (∀ m, replied_msg = some m → m.isVoice = true →
        get_reply_raises = false → command_triggered ev = true →
        handle_command_mode env ev replied_msg get_reply_raises st =
          process_voice_message env m ev.chatId false st) ∧
      (∀ e ∈ (handle_command_mode env ev replied_msg get_reply_raises
          st).effects, e.isForward = false) := by
  constructor
  · rintro m rfl hv rfl htrig
    simp [handle_command_mode, htrig, hv]
  · unfold handle_command_mode
    split_ifs with htrig hg
    · simp [Effect.isForward]
    · match replied_msg with
      | some m =>
        by_cases hv : m.isVoice
        · simpa [hv] using no_forward_effect_of_forward_false env m ev.chatId st
        · simp [hv, Effect.isForward]
      | none => simp [Effect.isForward]
    · simp [noop]

/-- C8 witness: a triggered stt reply to a voice message runs the pipeline
with forward set to false. -/
theorem C8_command_mode_never_forwards_witness :
    ((some ⟨2, true, 0⟩ : Option VoiceMsg) = some ⟨2, true, 0⟩ ∧
        (⟨2, true, 0⟩ : VoiceMsg).isVoice = true ∧
        command_triggered ⟨4, "Stt", some 1, ⟨9, false, 0⟩⟩ = true) ∧
      handle_command_mode ⟨some "hi", some "- hi", false, false, false⟩
          ⟨4, "Stt", some 1, ⟨9, false, 0⟩⟩ (some ⟨2, true, 0⟩) false
          ⟨[], []⟩ =
        process_voice_message ⟨some "hi", some "- hi", false, false, false⟩
          ⟨2, true, 0⟩ 4 false ⟨[], []⟩ :=
  ⟨⟨rfl, rfl, by decide⟩,
    (C8_command_mode_never_forwards ⟨some "hi", some "- hi", false, false, false⟩
        ⟨4, "Stt", some 1, ⟨9, false, 0⟩⟩ (some ⟨2, true, 0⟩) false
        ⟨[], []⟩).1 ⟨2, true, 0⟩ rfl rfl rfl (by decide)⟩

/-- C9: both adapter requests carry a 120-second timeout, and the
summarization request pins the temperature to 0. -/
theorem C9_adapter_timeouts_and_temperature (env : Env)
    (audio_file_path text : String) :
    (transcribe_audio env audio_file_path).1.timeout = 120 ∧
      (summarize_text env text).1.timeout = 120 ∧
      (summarize_text env text).1.temperature = 0 :=
  ⟨rfl, rfl, rfl⟩

/-- C10: an adapter returning the empty string is treated as a failure of
that stage: the ledger is unchanged, the temp file is removed, and no
summary is delivered. -/
theorem C10_empty_adapter_result_is_failure (env : Env) (msg : VoiceMsg)
    (dest : Int) (fwd : Bool) (st : PipelineState)
    (h : msg.id ∉ st.processed) (hd : env.downloadRaises = false)
    (he : env.transcribeResponse = some "" ∨
      env.summarizeResponse = some "") :
    (process_voice_message env msg dest fwd st).state.processed =
        st.processed ∧
      temp_path msg.id ∉
        (process_voice_message env msg dest fwd st).state.files ∧
      ∀ e ∈ (process_voice_message env msg dest fwd st).effects,
        e.isSend = false := by
  have h0 : ("" : String).isEmpty = true := rfl
  simp only [process_voice_message, process_body, transcribe_audio,
    summarize_text]
  rcases he with he | he <;>
    by_cases ht : pyFalsyStr env.transcribeResponse = true <;>
      simp_all [pyFalsyStr, not_mem_removeIfExists_self, Effect.isSend]

/-- C10 witness: the summarizer returns the empty string. -/
theorem C10_empty_adapter_result_is_failure_witness :
    ((11 ∉ (⟨[], []⟩ : PipelineState).processed) ∧
        ((some "" : Option String) = some "" ∨
          (some "" : Option String) = some "")) ∧
      (process_voice_message ⟨some "hello", some "", false, false, false⟩
          ⟨11, true, 10⟩ 99 false ⟨[], []⟩).state.processed =
        (⟨[], []⟩ : PipelineState).processed ∧
      temp_path 11 ∉
        (process_voice_message ⟨some "hello", some "", false, false, false⟩
            ⟨11, true, 10⟩ 99 false ⟨[], []⟩).state.files ∧
      ∀ e ∈ (process_voice_message ⟨some "hello", some "", false, false, false⟩
          ⟨11, true, 10⟩ 99 false ⟨[], []⟩).effects, e.isSend = false :=
  ⟨⟨by simp, Or.inr rfl⟩,
    C10_empty_adapter_result_is_failure
      ⟨some "hello", some "", false, false, false⟩ ⟨11, true, 10⟩ 99 false
      ⟨[], []⟩ (by simp) rfl (Or.inr rfl)⟩

end VoiceBot
